import Mathlib

/-!
Shallow embedding of `src/backend/mlx_transformer.py` (ParleyAI).

The file under verification is a delegation shim around an external ML
runtime (MLX) and its model-serving helper library (`mlx_lm`).  The
external capabilities — availability probe, `load`, `generate`,
`stream_generate`, and the tokenizer's `apply_chat_template` — are modelled
as an explicit stub environment `MLXEnv`, since the Python code only
imports and forwards to them.  Every operation of the shim is translated
as a pure function that returns its result together with a trace of the
observable effects it performs (lines printed, delegated calls made), so
that claims about "never invoked", "exactly once", and ordering are
statable.
-/

namespace MLXTransformer

/-- One entry of the fixed `MODELS` variant table:
`{"repo": ..., "size_gb": ..., "quality": ...}` in the Python source. -/
structure ModelInfo where
  repo : String
  size_gb : Nat
  quality : String
deriving DecidableEq, Repr

/-- The fixed `MLXLlamaTransformer.MODELS` table, in the source's
(insertion) order, which Python dictionaries preserve. -/
def MODELS : List (String × ModelInfo) :=
  [("4bit", ⟨"mlx-community/Llama-3.3-70B-Instruct-4bit", 38,
      "Good quality, 4-bit quantization"⟩),
   ("8bit", ⟨"mlx-community/Llama-3.3-70B-Instruct-8bit", 70,
      "High quality, requires 64GB+ RAM"⟩),
   ("3bit", ⟨"mlx-community/Llama-3.3-70B-Instruct-3bit", 28,
      "Lower quality, fits 32GB RAM"⟩)]

/-- Dictionary lookup `self.MODELS[model_name]` (with the membership test
`model_name not in self.MODELS` corresponding to the `none` case). -/
def lookupModel (k : String) : Option ModelInfo :=
  MODELS.lookup k

/-- `list(self.MODELS.keys())` as a list. -/
def modelKeys : List String :=
  MODELS.map (fun p => p.1)

/-- The Python rendering of `list(self.MODELS.keys())` inside the
f-string of the `ValueError` message: the three keys in table order,
comma-separated inside square brackets, each wrapped in single quotes
(written as the escape U+0027 below). -/
def modelKeysRepr : String :=
  "[\u00274bit\u0027, \u00278bit\u0027, \u00273bit\u0027]"

/-- A chat message dict `{"role": ..., "content": ...}`. -/
structure ChatMessage where
  role : String
  content : String
deriving DecidableEq, Repr

/-- The argument tuple the shim passes to the external `mlx_lm.generate`
routine: `generate(self.model, self.tokenizer, prompt=..., max_tokens=...,
temp=..., top_p=..., verbose=...)`. -/
structure GenCall (Model Tok : Type) where
  model : Model
  tokenizer : Tok
  prompt : String
  max_tokens : Nat
  temp : ℚ
  top_p : ℚ
  verbose : Bool
deriving DecidableEq, Repr

/-- The argument tuple the shim passes to the external
`mlx_lm.stream_generate` routine: `mlx_stream(self.model, self.tokenizer,
prompt=..., max_tokens=..., temp=...)` — note: no `top_p`, no `verbose`. -/
structure StreamCall (Model Tok : Type) where
  model : Model
  tokenizer : Tok
  prompt : String
  max_tokens : Nat
  temp : ℚ
deriving DecidableEq, Repr

/-- The argument tuple the shim passes to the tokenizer's
`apply_chat_template(messages, tokenize=False, add_generation_prompt=True)`. -/
structure TemplateCall (Tok : Type) where
  tokenizer : Tok
  messages : List ChatMessage
  tokenize : Bool
  add_generation_prompt : Bool
deriving DecidableEq, Repr

/-- Stub model of the external MLX runtime and `mlx_lm` helper library.
`available` is the outcome of the import probe; `load`, `mlx_generate`,
`mlx_stream` and `apply_chat_template` are the four delegated capabilities.
The shim treats all of them as black boxes. -/
structure MLXEnv (Model Tok : Type) where
  available : Bool
  load : String → Model × Tok
  mlx_generate : GenCall Model Tok → String
  mlx_stream : StreamCall Model Tok → List String
  apply_chat_template : TemplateCall Tok → String

/-- `check_mlx()`: the import-success probe for `mlx.core` and `mlx_lm`. -/
def check_mlx {Model Tok : Type} (env : MLXEnv Model Tok) : Bool :=
  env.available

/-- The session state built by a successful `__init__`: the loaded model
handle, the tokenizer handle, and the verbosity flag. -/
structure TransformerState (Model Tok : Type) where
  model : Model
  tokenizer : Tok
  verbose : Bool

/-- Observable effects of `__init__`: a printed line, or an invocation of
the external `load` routine with a repository location. -/
inductive InitEvent where
  | printed (line : String)
  | loadCalled (repo : String)
deriving DecidableEq, BEq, Repr

/-- Outcome of `__init__`: `sys.exit(code)`, a raised `ValueError`
(the spec's `ConfigurationError`), or a ready session. -/
inductive InitResult (Model Tok : Type) where
  | exited (code : Nat)
  | raisedValueError (msg : String)
  | ok (self : TransformerState Model Tok)

/-- The sixty-character separator `{\x7b'='*60\x7d}` used by the verbose banner. -/
def sep60 : String :=
  String.mk (List.replicate 60 '=')

/-- The two lines printed before `sys.exit(1)` when MLX is missing. -/
def mlxMissingLines : List InitEvent :=
  [.printed "Error: MLX not installed.",
   .printed "Install with: pip install mlx mlx-lm transformers"]

/-- First line of the capacity warning block. -/
def capacityWarningHead : String :=
  "⚠️  Warning: This model may not fit in 16GB RAM!"

/-- The capacity-warning block printed when `model_info['size_gb'] > 16`
inside the verbose branch. -/
def capacityWarningLines : List InitEvent :=
  [.printed capacityWarningHead,
   .printed "   Consider using llama_transformer.py with GGUF models instead.",
   .printed "   GGUF supports streaming from disk with mmap.\n"]

/-- The `ValueError` message
`f"Unknown model: \x7bmodel_name\x7d. Options: \x7blist(self.MODELS.keys())\x7d"`. -/
def unknownModelMsg (model_name : String) : String :=
  "Unknown model: " ++ model_name ++ ". Options: " ++ modelKeysRepr

/-- `MLXLlamaTransformer.__init__(model_name, max_tokens, verbose)`.
The `max_tokens` parameter is accepted and never used, as in the source.
Returns the outcome together with the ordered trace of printed lines and
load invocations. -/
def MLXLlamaTransformer.init {Model Tok : Type} (env : MLXEnv Model Tok)
    (model_name : String) (max_tokens : Nat) (verbose : Bool) :
    InitResult Model Tok × List InitEvent :=
  if check_mlx env = false then
    (.exited 1, mlxMissingLines)
  else
    match lookupModel model_name with
    | none => (.raisedValueError (unknownModelMsg model_name), [])
    | some model_info =>
      let banner : List InitEvent :=
        if verbose then
          [.printed ("\n" ++ sep60),
           .printed ("MLX Llama 3.3 70B Instruct - " ++ model_name),
           .printed sep60,
           .printed ("Repository: " ++ model_info.repo),
           .printed ("Size: ~" ++ toString model_info.size_gb ++ "GB"),
           .printed ("Quality: " ++ model_info.quality),
           .printed (sep60 ++ "\n")] ++
          (if model_info.size_gb > 16 then capacityWarningLines else [])
        else []
      let loading : List InitEvent :=
        if verbose then
          [.printed ("Loading model from: " ++ model_info.repo),
           .printed "This may take several minutes on first download..."]
        else []
      let loaded := env.load model_info.repo
      let done : List InitEvent :=
        if verbose then [.printed "\n✓ Model loaded successfully!"] else []
      (.ok ⟨loaded.1, loaded.2, verbose⟩,
       banner ++ loading ++ [.loadCalled model_info.repo] ++ done)

/-- Default `top_p=0.9` of `MLXLlamaTransformer.generate`. -/
def GENERATE_DEFAULT_TOP_P : ℚ := 0.9

/-- Default `temperature=0.7` shared by `generate`, `chat` and
`stream_generate`. -/
def DEFAULT_TEMPERATURE : ℚ := 0.7

/-- Default `max_tokens=512` shared by `generate`, `chat` and
`stream_generate`. -/
def DEFAULT_GEN_MAX_TOKENS : Nat := 512

/-- `MLXLlamaTransformer.generate(prompt, max_tokens, temperature, top_p)`:
delegates to the external `generate` with the arguments forwarded, plus
the session's `verbose` flag, and returns its response unchanged.  The
second component is the list of delegated calls made. -/
def MLXLlamaTransformer.generate {Model Tok : Type} (env : MLXEnv Model Tok)
    (self : TransformerState Model Tok) (prompt : String) (max_tokens : Nat)
    (temperature : ℚ) (top_p : ℚ) : String × List (GenCall Model Tok) :=
  let call : GenCall Model Tok :=
    ⟨self.model, self.tokenizer, prompt, max_tokens, temperature, top_p, self.verbose⟩
  (env.mlx_generate call, [call])

/-- Observable effects of `chat`: a chat-template rendering, or a
delegation to the external generation routine (via `self.generate`). -/
inductive ChatEvent (Model Tok : Type) where
  | templateCalled (c : TemplateCall Tok)
  | genDelegated (c : GenCall Model Tok)
deriving DecidableEq, Repr

/-- `MLXLlamaTransformer.chat(messages, max_tokens, temperature)`:
renders the messages with `apply_chat_template(messages, tokenize=False,
add_generation_prompt=True)` and forwards the rendered prompt to
`self.generate` with the caller's `max_tokens` and `temperature` (so
`generate`'s default `top_p=0.9` applies).  The trace lists the template
rendering first, then the delegated generation calls. -/
def MLXLlamaTransformer.chat {Model Tok : Type} (env : MLXEnv Model Tok)
    (self : TransformerState Model Tok) (messages : List ChatMessage)
    (max_tokens : Nat) (temperature : ℚ) :
    String × List (ChatEvent Model Tok) :=
  let tcall : TemplateCall Tok := ⟨self.tokenizer, messages, false, true⟩
  let prompt := env.apply_chat_template tcall
  let g := MLXLlamaTransformer.generate env self prompt max_tokens temperature
    GENERATE_DEFAULT_TOP_P
  (g.1, .templateCalled tcall :: g.2.map .genDelegated)

/-- The `for token in mlx_stream(...): yield token` loop: re-yields every
fragment the external streaming routine produces, in order, as soon as it
is produced. -/
def yieldAll : List String → List String
  | [] => []
  | token :: rest => token :: yieldAll rest

/-- `MLXLlamaTransformer.stream_generate(prompt, max_tokens, temperature)`:
delegates to the external `stream_generate` (passing no `top_p` and no
`verbose`) and yields each produced fragment.  The first component is the
fully-consumed sequence of yielded fragments; the second is the list of
delegated streaming calls made. -/
def MLXLlamaTransformer.stream_generate {Model Tok : Type} (env : MLXEnv Model Tok)
    (self : TransformerState Model Tok) (prompt : String) (max_tokens : Nat)
    (temperature : ℚ) : List String × List (StreamCall Model Tok) :=
  let call : StreamCall Model Tok :=
    ⟨self.model, self.tokenizer, prompt, max_tokens, temperature⟩
  (yieldAll (env.mlx_stream call), [call])

/-- Outcome of the `main()` entry point.  `finished` means `main` returned
normally, so the script exits with status 0. -/
inductive MainResult where
  | finished
  | exitedDuringInit (code : Nat)
  | raisedDuringInit (msg : String)
deriving DecidableEq, Repr

/-- Observable effects of `main`. -/
inductive MainEvent (Model Tok : Type) where
  | printed (line : String)
  | initEv (e : InitEvent)
  | chatEv (e : ChatEvent Model Tok)
deriving DecidableEq, Repr

/-- The five lines `main` always prints before parsing arguments. -/
def mainHeaderLines : List String :=
  ["\n⚠️  Note: For 16GB RAM, MLX may struggle with 70B models.",
   "   The recommended approach is llama_transformer.py with GGUF models",
   "   which supports mmap for streaming from disk.\n",
   "If you have 32GB+ unified memory, you can try:",
   "  python mlx_transformer.py\n"]

/-- The guidance printed when `--confirm` is absent. -/
def noConfirmLines : List String :=
  ["Run with --confirm if you have 32GB+ RAM to proceed.",
   "For 16GB RAM, use the main llama_transformer.py instead."]

/-- The example conversation used by `main`. -/
def exampleMessages : List ChatMessage :=
  [⟨"system", "You are a helpful assistant."⟩,
   ⟨"user", "What is Python?"⟩]

/-- `main()`: prints the header, parses `--confirm` (modelled as the
boolean `confirm`), and either returns with guidance printed or
constructs a `"4bit"` session (constructor defaults `max_tokens=2048`,
`verbose=True`), runs one example chat exchange (`chat` defaults
`max_tokens=512`, `temperature=0.7`), and prints the response. -/
def main {Model Tok : Type} (env : MLXEnv Model Tok) (confirm : Bool) :
    MainResult × List (MainEvent Model Tok) :=
  let header : List (MainEvent Model Tok) := mainHeaderLines.map .printed
  if confirm = false then
    (.finished, header ++ noConfirmLines.map .printed)
  else
    let r := MLXLlamaTransformer.init env "4bit" 2048 true
    match r.1 with
    | .exited code => (.exitedDuringInit code, header ++ r.2.map .initEv)
    | .raisedValueError msg => (.raisedDuringInit msg, header ++ r.2.map .initEv)
    | .ok self =>
      let c := MLXLlamaTransformer.chat env self exampleMessages
        DEFAULT_GEN_MAX_TOKENS DEFAULT_TEMPERATURE
      (.finished,
       header ++ r.2.map .initEv ++ c.2.map .chatEv ++
         [.printed ("\nResponse: " ++ c.1)])

/-- A concrete stub environment (runtime available) used by witnesses. -/
def envW : MLXEnv Unit Unit :=
  ⟨true, fun _ => ((), ()), fun c => c.prompt ++ "!",
   fun c => [c.prompt, "!"], fun _ => "rendered"⟩

/-- A concrete stub environment reporting the runtime unavailable. -/
def envNoMLX : MLXEnv Unit Unit :=
  ⟨false, fun _ => ((), ()), fun _ => "", fun _ => [], fun _ => ""⟩

/-- The yield loop of `stream_generate` passes every fragment through
unchanged: nothing is buffered, dropped, or reordered. -/
theorem yieldAll_id (l : List String) : yieldAll l = l := by
  induction l with
  | nil => rfl
  | cons token rest ih => simp [yieldAll, ih]

/-- C1: fully consuming the lazy sequence returned by `stream_generate`
yields exactly the fragments produced by the external streaming routine,
in order (no buffering, dropping, or reordering at this layer), and —
assuming the external generation routine and its streaming counterpart
are modelled by the same stub on both paths, i.e. the streaming stub's
concatenation agrees with the generation stub at the corresponding
arguments — concatenating those fragments equals the result of calling
`generate` with the same prompt, max-tokens and temperature (and
`generate`'s default `top_p`). -/
theorem stream_generate_refines_generate {Model Tok : Type}
    (env : MLXEnv Model Tok) (self : TransformerState Model Tok)
    (hstub : ∀ (p : String) (mt : Nat) (t : ℚ),
      String.join (env.mlx_stream ⟨self.model, self.tokenizer, p, mt, t⟩) =
        env.mlx_generate ⟨self.model, self.tokenizer, p, mt, t,
          GENERATE_DEFAULT_TOP_P, self.verbose⟩)
    (prompt : String) (max_tokens : Nat) (temperature : ℚ) :
    (MLXLlamaTransformer.stream_generate env self prompt max_tokens temperature).1 =
      env.mlx_stream ⟨self.model, self.tokenizer, prompt, max_tokens, temperature⟩ ∧
    String.join
        (MLXLlamaTransformer.stream_generate env self prompt max_tokens temperature).1 =
      (MLXLlamaTransformer.generate env self prompt max_tokens temperature
        GENERATE_DEFAULT_TOP_P).1 := by
  constructor
  · exact yieldAll_id _
  · rw [MLXLlamaTransformer.stream_generate]
    simp only [yieldAll_id]
    exact hstub prompt max_tokens temperature

/-- Witness for C1 at a concrete environment, prompt, and parameters. -/
theorem stream_generate_refines_generate_witness :
    (MLXLlamaTransformer.stream_generate envW ⟨(), (), true⟩ "hi" 5 1).1 =
      envW.mlx_stream ⟨(), (), "hi", 5, 1⟩ ∧
    String.join (MLXLlamaTransformer.stream_generate envW ⟨(), (), true⟩ "hi" 5 1).1 =
      (MLXLlamaTransformer.generate envW ⟨(), (), true⟩ "hi" 5 1
        GENERATE_DEFAULT_TOP_P).1 :=
  stream_generate_refines_generate envW ⟨(), (), true⟩
    (fun p mt t => by simp [envW, String.join]) "hi" 5 1

/-- C3: `generate` invokes the delegated external generation routine
exactly once, forwarding the prompt, max_tokens, temperature and top_p
unmodified (together with the session's verbosity flag), and returns the
delegate's result string with no pre- or post-processing. -/
theorem generate_forwards_verbatim {Model Tok : Type} (env : MLXEnv Model Tok)
    (self : TransformerState Model Tok) (prompt : String) (max_tokens : Nat)
    (temperature : ℚ) (top_p : ℚ) :
    MLXLlamaTransformer.generate env self prompt max_tokens temperature top_p =
      (env.mlx_generate ⟨self.model, self.tokenizer, prompt, max_tokens,
          temperature, top_p, self.verbose⟩,
       [⟨self.model, self.tokenizer, prompt, max_tokens, temperature, top_p,
          self.verbose⟩]) :=
  rfl

/-- C4: `chat` first invokes the tokenizer's chat-template rendering with
exactly the given ordered message sequence, `tokenize=False` and the
generation-prompt suffix enabled, then forwards the rendered prompt to
`generate` together with the caller's `max_tokens` and `temperature`,
with `generate`'s fixed default `top_p` applying. -/
theorem chat_renders_then_generates {Model Tok : Type} (env : MLXEnv Model Tok)
    (self : TransformerState Model Tok) (messages : List ChatMessage)
    (max_tokens : Nat) (temperature : ℚ) :
    MLXLlamaTransformer.chat env self messages max_tokens temperature =
      (env.mlx_generate ⟨self.model, self.tokenizer,
          env.apply_chat_template ⟨self.tokenizer, messages, false, true⟩,
          max_tokens, temperature, GENERATE_DEFAULT_TOP_P, self.verbose⟩,
       [.templateCalled ⟨self.tokenizer, messages, false, true⟩,
        .genDelegated ⟨self.model, self.tokenizer,
          env.apply_chat_template ⟨self.tokenizer, messages, false, true⟩,
          max_tokens, temperature, GENERATE_DEFAULT_TOP_P, self.verbose⟩]) :=
  rfl

/-- C10: the two delegation paths pass different argument sets: `generate`
forwards a `top_p` value (whose default is `0.9`) and the session's
verbosity flag to the external generation routine, while `stream_generate`
passes only the model, tokenizer, prompt, max_tokens and temperature to
the external streaming routine — no `top_p` and no verbosity flag. -/
theorem generate_and_stream_args_differ {Model Tok : Type} (env : MLXEnv Model Tok)
    (self : TransformerState Model Tok) (prompt : String) (max_tokens : Nat)
    (temperature : ℚ) (top_p : ℚ) :
    (MLXLlamaTransformer.generate env self prompt max_tokens temperature top_p).2 =
      [⟨self.model, self.tokenizer, prompt, max_tokens, temperature, top_p,
        self.verbose⟩] ∧
    (MLXLlamaTransformer.stream_generate env self prompt max_tokens temperature).2 =
      [⟨self.model, self.tokenizer, prompt, max_tokens, temperature⟩] ∧
    GENERATE_DEFAULT_TOP_P = 9 / 10 := by
  refine ⟨rfl, rfl, ?_⟩
  norm_num [GENERATE_DEFAULT_TOP_P]

/-- C2: for every `model_name` key not present in the fixed `MODELS`
table, construction with the runtime available raises the `ValueError`
(the spec's `ConfigurationError`) whose message names the invalid key and
lists the valid keys, and the external load routine is never invoked (the
effect trace is empty). -/
theorem init_unknown_model_raises {Model Tok : Type} (env : MLXEnv Model Tok)
    (model_name : String) (max_tokens : Nat) (verbose : Bool)
    (hav : env.available = true) (hk : lookupModel model_name = none) :
    MLXLlamaTransformer.init env model_name max_tokens verbose =
      (.raisedValueError
        ("Unknown model: " ++ model_name ++ ". Options: " ++ modelKeysRepr), []) := by
  simp [MLXLlamaTransformer.init, check_mlx, hav, hk, unknownModelMsg]

/-- Witness for C2 at the concrete invalid key `"7bit"`. -/
theorem init_unknown_model_raises_witness :
    lookupModel "7bit" = none ∧
    MLXLlamaTransformer.init envW "7bit" 2048 true =
      (.raisedValueError
        ("Unknown model: " ++ "7bit" ++ ". Options: " ++ modelKeysRepr), []) :=
  ⟨rfl, init_unknown_model_raises envW "7bit" 2048 true rfl rfl⟩

/-- C5: whenever the availability probe reports the MLX runtime
unavailable, construction prints exactly the two installation-guidance
lines, never invokes the external load routine, and exits the process
with status 1, for every choice of the other constructor arguments. -/
theorem init_mlx_missing_exits {Model Tok : Type} (env : MLXEnv Model Tok)
    (model_name : String) (max_tokens : Nat) (verbose : Bool)
    (hav : env.available = false) :
    MLXLlamaTransformer.init env model_name max_tokens verbose =
      (.exited 1, mlxMissingLines) := by
  simp [MLXLlamaTransformer.init, check_mlx, hav]

/-- Witness for C5 at a concrete unavailable environment. -/
theorem init_mlx_missing_exits_witness :
    MLXLlamaTransformer.init envNoMLX "4bit" 2048 false =
      (.exited 1, mlxMissingLines) :=
  init_mlx_missing_exits envNoMLX "4bit" 2048 false rfl

/-- C9 (implicit): the constructor checks the dependency precondition
before the variant-key precondition: for every invalid `model_name`, if
the runtime is unavailable the constructor exits with status 1 after
printing the guidance lines, and the `ValueError` for the invalid key is
never raised. -/
theorem init_dependency_checked_first {Model Tok : Type} (env : MLXEnv Model Tok)
    (model_name : String) (max_tokens : Nat) (verbose : Bool)
    (hk : lookupModel model_name = none) (hav : env.available = false) :
    MLXLlamaTransformer.init env model_name max_tokens verbose =
      (.exited 1, mlxMissingLines) ∧
    ∀ msg, (MLXLlamaTransformer.init env model_name max_tokens verbose).1 ≠
      InitResult.raisedValueError msg := by
  constructor
  · simp [MLXLlamaTransformer.init, check_mlx, hav]
  · intro msg
    simp [MLXLlamaTransformer.init, check_mlx, hav]

/-- Witness for C9 at the concrete invalid key `"7bit"` with the runtime
unavailable. -/
theorem init_dependency_checked_first_witness :
    lookupModel "7bit" = none ∧
    (MLXLlamaTransformer.init envNoMLX "7bit" 512 true =
      (.exited 1, mlxMissingLines) ∧
    ∀ msg, (MLXLlamaTransformer.init envNoMLX "7bit" 512 true).1 ≠
      InitResult.raisedValueError msg) :=
  ⟨rfl, init_dependency_checked_first envNoMLX "7bit" 512 true rfl rfl⟩

/-- C7: the fixed variant table resolves each of its three keys, `"4bit"`,
`"8bit"` and `"3bit"`, to exactly one fixed record of repository location,
approximate size in GB and quality note; the lookup is a pure total
function over exactly the valid keys (every other key resolves to
nothing). -/
theorem models_lookup_pure_total :
    lookupModel "4bit" = some ⟨"mlx-community/Llama-3.3-70B-Instruct-4bit", 38,
      "Good quality, 4-bit quantization"⟩ ∧
    lookupModel "8bit" = some ⟨"mlx-community/Llama-3.3-70B-Instruct-8bit", 70,
      "High quality, requires 64GB+ RAM"⟩ ∧
    lookupModel "3bit" = some ⟨"mlx-community/Llama-3.3-70B-Instruct-3bit", 28,
      "Lower quality, fits 32GB RAM"⟩ ∧
    (∀ k : String, (lookupModel k).isSome = true ↔ k ∈ modelKeys) := by
  refine ⟨rfl, rfl, rfl, ?_⟩
  intro k
  by_cases h4 : k = "4bit"
  · subst h4; simp [lookupModel, MODELS, modelKeys]
  · by_cases h8 : k = "8bit"
    · subst h8; simp [lookupModel, MODELS, modelKeys]
    · by_cases h3 : k = "3bit"
      · subst h3; simp [lookupModel, MODELS, modelKeys]
      · have e4 : (k == "4bit") = false := beq_eq_false_iff_ne.mpr h4
        have e8 : (k == "8bit") = false := beq_eq_false_iff_ne.mpr h8
        have e3 : (k == "3bit") = false := beq_eq_false_iff_ne.mpr h3
        simp [lookupModel, MODELS, modelKeys, List.lookup, e4, e8, e3, h4, h8, h3]

/-- A successful table lookup yields one of the three fixed entries. -/
theorem lookupModel_cases (k : String) (i : ModelInfo)
    (h : lookupModel k = some i) :
    (k = "4bit" ∧ i = ⟨"mlx-community/Llama-3.3-70B-Instruct-4bit", 38,
      "Good quality, 4-bit quantization"⟩) ∨
    (k = "8bit" ∧ i = ⟨"mlx-community/Llama-3.3-70B-Instruct-8bit", 70,
      "High quality, requires 64GB+ RAM"⟩) ∨
    (k = "3bit" ∧ i = ⟨"mlx-community/Llama-3.3-70B-Instruct-3bit", 28,
      "Lower quality, fits 32GB RAM"⟩) := by
  by_cases h4 : k = "4bit"
  · subst h4
    simp [lookupModel, MODELS, List.lookup] at h
    exact Or.inl ⟨rfl, h.symm⟩
  · by_cases h8 : k = "8bit"
    · subst h8
      simp [lookupModel, MODELS, List.lookup] at h
      exact Or.inr (Or.inl ⟨rfl, h.symm⟩)
    · by_cases h3 : k = "3bit"
      · subst h3
        simp [lookupModel, MODELS, List.lookup] at h
        exact Or.inr (Or.inr ⟨rfl, h.symm⟩)
      · exfalso
        have e4 : (k == "4bit") = false := beq_eq_false_iff_ne.mpr h4
        have e8 : (k == "8bit") = false := beq_eq_false_iff_ne.mpr h8
        have e3 : (k == "3bit") = false := beq_eq_false_iff_ne.mpr h3
        simp [lookupModel, MODELS, List.lookup, e4, e8, e3] at h

/-- C6: during construction over a valid variant, the capacity warning is
emitted if and only if verbose is enabled and the variant's approximate
size in GB strictly exceeds 16 (so the `"8bit"` variant at 70 GB and the
`"4bit"` variant at 38 GB trigger it with verbose on, no variant of size
at most 16 would, and with verbose off no warning is emitted); when it is
emitted, it appears strictly before the load invocation in the trace. -/
theorem init_capacity_warning {Model Tok : Type} (env : MLXEnv Model Tok)
    (model_name : String) (model_info : ModelInfo) (max_tokens : Nat)
    (verbose : Bool) (hav : env.available = true)
    (hk : lookupModel model_name = some model_info) :
    (InitEvent.printed capacityWarningHead ∈
        (MLXLlamaTransformer.init env model_name max_tokens verbose).2 ↔
      verbose = true ∧ 16 < model_info.size_gb) ∧
    (verbose = true → 16 < model_info.size_gb →
      List.indexOf (InitEvent.printed capacityWarningHead)
          (MLXLlamaTransformer.init env model_name max_tokens verbose).2 <
        List.indexOf (InitEvent.loadCalled model_info.repo)
          (MLXLlamaTransformer.init env model_name max_tokens verbose).2) := by
  rcases lookupModel_cases model_name model_info hk with
    ⟨hn, hi⟩ | ⟨hn, hi⟩ | ⟨hn, hi⟩ <;>
      subst hn <;> subst hi <;> cases verbose <;>
        refine ⟨?_, ?_⟩ <;>
          simp [MLXLlamaTransformer.init, check_mlx, hav, lookupModel, MODELS,
            List.lookup, capacityWarningLines, capacityWarningHead] <;>
            decide

/-- Witness for C6: the `"8bit"` variant (70 GB) on a verbose session
triggers the capacity warning, and the warning precedes the load. -/
theorem init_capacity_warning_witness :
    lookupModel "8bit" = some ⟨"mlx-community/Llama-3.3-70B-Instruct-8bit", 70,
      "High quality, requires 64GB+ RAM"⟩ ∧
    ((InitEvent.printed capacityWarningHead ∈
        (MLXLlamaTransformer.init envW "8bit" 2048 true).2 ↔
      true = true ∧ 16 < (70 : Nat)) ∧
    (true = true → 16 < (70 : Nat) →
      List.indexOf (InitEvent.printed capacityWarningHead)
          (MLXLlamaTransformer.init envW "8bit" 2048 true).2 <
        List.indexOf
          (InitEvent.loadCalled "mlx-community/Llama-3.3-70B-Instruct-8bit")
          (MLXLlamaTransformer.init envW "8bit" 2048 true).2)) :=
  ⟨rfl, init_capacity_warning envW "8bit"
    ⟨"mlx-community/Llama-3.3-70B-Instruct-8bit", 70,
      "High quality, requires 64GB+ RAM"⟩ 2048 true rfl rfl⟩

/-- C8: without `--confirm`, `main` prints the header and guidance lines
and returns normally (process exit status 0) without constructing a
session or invoking any load; with `--confirm` (and the runtime
available), it constructs a session for the `"4bit"` variant — whose load
is the single `loadCalled` event in the trace — runs exactly one example
chat exchange, and prints the response. -/
theorem main_confirm_flag_behaviour {Model Tok : Type} (env : MLXEnv Model Tok)
    (hav : env.available = true) :
    main env false =
      (.finished, (mainHeaderLines ++ noConfirmLines).map MainEvent.printed) ∧
    main env true =
      (.finished,
       mainHeaderLines.map MainEvent.printed ++
       ([InitEvent.printed ("\n" ++ sep60),
         InitEvent.printed "MLX Llama 3.3 70B Instruct - 4bit",
         InitEvent.printed sep60,
         InitEvent.printed "Repository: mlx-community/Llama-3.3-70B-Instruct-4bit",
         InitEvent.printed ("Size: ~" ++ toString (38 : Nat) ++ "GB"),
         InitEvent.printed "Quality: Good quality, 4-bit quantization",
         InitEvent.printed (sep60 ++ "\n")] ++ capacityWarningLines ++
        [InitEvent.printed
           "Loading model from: mlx-community/Llama-3.3-70B-Instruct-4bit",
         InitEvent.printed "This may take several minutes on first download...",
         InitEvent.loadCalled "mlx-community/Llama-3.3-70B-Instruct-4bit",
         InitEvent.printed "\n✓ Model loaded successfully!"]).map MainEvent.initEv ++
       [MainEvent.chatEv (.templateCalled
          ⟨(env.load "mlx-community/Llama-3.3-70B-Instruct-4bit").2,
           exampleMessages, false, true⟩),
        MainEvent.chatEv (.genDelegated
          ⟨(env.load "mlx-community/Llama-3.3-70B-Instruct-4bit").1,
           (env.load "mlx-community/Llama-3.3-70B-Instruct-4bit").2,
           env.apply_chat_template
             ⟨(env.load "mlx-community/Llama-3.3-70B-Instruct-4bit").2,
              exampleMessages, false, true⟩,
           DEFAULT_GEN_MAX_TOKENS, DEFAULT_TEMPERATURE, GENERATE_DEFAULT_TOP_P,
           true⟩)] ++
       [MainEvent.printed ("\nResponse: " ++ env.mlx_generate
          ⟨(env.load "mlx-community/Llama-3.3-70B-Instruct-4bit").1,
           (env.load "mlx-community/Llama-3.3-70B-Instruct-4bit").2,
           env.apply_chat_template
             ⟨(env.load "mlx-community/Llama-3.3-70B-Instruct-4bit").2,
              exampleMessages, false, true⟩,
           DEFAULT_GEN_MAX_TOKENS, DEFAULT_TEMPERATURE, GENERATE_DEFAULT_TOP_P,
           true⟩)]) := by
  constructor
  · rfl
  · simp [main, MLXLlamaTransformer.init, check_mlx, hav, lookupModel, MODELS,
      List.lookup, MLXLlamaTransformer.chat, MLXLlamaTransformer.generate]

/-- Witness for C8 at the concrete available environment. -/
theorem main_confirm_flag_behaviour_witness :
    main envW false =
      (.finished, (mainHeaderLines ++ noConfirmLines).map MainEvent.printed) ∧
    main envW true =
      (.finished,
       mainHeaderLines.map MainEvent.printed ++
       ([InitEvent.printed ("\n" ++ sep60),
         InitEvent.printed "MLX Llama 3.3 70B Instruct - 4bit",
         InitEvent.printed sep60,
         InitEvent.printed "Repository: mlx-community/Llama-3.3-70B-Instruct-4bit",
         InitEvent.printed ("Size: ~" ++ toString (38 : Nat) ++ "GB"),
         InitEvent.printed "Quality: Good quality, 4-bit quantization",
         InitEvent.printed (sep60 ++ "\n")] ++ capacityWarningLines ++
        [InitEvent.printed
           "Loading model from: mlx-community/Llama-3.3-70B-Instruct-4bit",
         InitEvent.printed "This may take several minutes on first download...",
         InitEvent.loadCalled "mlx-community/Llama-3.3-70B-Instruct-4bit",
         InitEvent.printed "\n✓ Model loaded successfully!"]).map MainEvent.initEv ++
       [MainEvent.chatEv (.templateCalled
          ⟨(envW.load "mlx-community/Llama-3.3-70B-Instruct-4bit").2,
           exampleMessages, false, true⟩),
        MainEvent.chatEv (.genDelegated
          ⟨(envW.load "mlx-community/Llama-3.3-70B-Instruct-4bit").1,
           (envW.load "mlx-community/Llama-3.3-70B-Instruct-4bit").2,
           envW.apply_chat_template
             ⟨(envW.load "mlx-community/Llama-3.3-70B-Instruct-4bit").2,
              exampleMessages, false, true⟩,
           DEFAULT_GEN_MAX_TOKENS, DEFAULT_TEMPERATURE, GENERATE_DEFAULT_TOP_P,
           true⟩)] ++
       [MainEvent.printed ("\nResponse: " ++ envW.mlx_generate
          ⟨(envW.load "mlx-community/Llama-3.3-70B-Instruct-4bit").1,
           (envW.load "mlx-community/Llama-3.3-70B-Instruct-4bit").2,
           envW.apply_chat_template
             ⟨(envW.load "mlx-community/Llama-3.3-70B-Instruct-4bit").2,
              exampleMessages, false, true⟩,
           DEFAULT_GEN_MAX_TOKENS, DEFAULT_TEMPERATURE, GENERATE_DEFAULT_TOP_P,
           true⟩)]) :=
  main_confirm_flag_behaviour envW rfl

end MLXTransformer
